import Mathlib

/-!
Verification of the hermitdroid control-loop core against its specification.

The Rust sources are shallowly embedded: pure functions become Lean
functions, stateful components (the guardrail `ActionExecutor`, the
`StuckDetector`, the `FallbackManager`) become explicit state-passing
functions over record types that mirror the Rust structs, and the external
collaborators (the ADB "Device Driver", `serde_json`, wall-clock time) are
modelled as explicit parameters: the driver as an oracle function whose
invocations are recorded in a trace, time as a `Nat` argument standing for
`Instant::now()`.

Machine integers: the Rust code uses `u32`/`u64` counters (modelled as
`Nat`; the counters never remotely approach overflow and Rust arithmetic on
them matches `Nat` arithmetic, including `saturating_sub`), `i32`
coordinates (modelled as `Int`, with Rust's truncating division written
`Int.tdiv`) and `f32` scores (modelled exactly where the code only adds
small constant multiples of 1/50, see the perception section).
-/

namespace Hermit

/-- Rust `str::to_uppercase`, modelled character-wise.  `char::to_uppercase`
agrees with `Char.toUpper` on ASCII, and the classification strings the
code uppercases are ASCII. -/
def strToUpper (s : String) : String := String.mk (s.data.map Char.toUpper)

/-- Rust `str::contains(needle)`: byte-substring search.  For valid UTF-8 a
byte-level match always falls on character boundaries, so it coincides with
character-list infix. -/
def strContains (hay needle : String) : Bool :=
  decide (needle.data <:+: hay.data)

-- ═══════════════════════════════════════════════════════════════════════
-- JSON values (`serde_json::Value`) — only the shape, not the parser.
-- ═══════════════════════════════════════════════════════════════════════

/-- `serde_json::Value`.  Objects are association lists; `serde_json` keeps
one entry per key, and `Value::get` looks a key up in the object. -/
inductive JsonVal where
  | null
  | bool (b : Bool)
  | num (n : Int)
  | str (s : String)
  | arr (xs : List JsonVal)
  | obj (kvs : List (String × JsonVal))

/-- `Value::get(key)`: `Some` only on objects containing the key. -/
def JsonVal.get : JsonVal → String → Option JsonVal
  | .obj kvs, k => (kvs.find? (fun kv => kv.1 = k)).map (·.2)
  | _, _ => none

/-- `Value::as_str`. -/
def JsonVal.asStr : JsonVal → Option String
  | .str s => some s
  | _ => none

-- ═══════════════════════════════════════════════════════════════════════
-- src/brain/mod.rs — `AgentAction` / `AgentResponse` data model
-- ═══════════════════════════════════════════════════════════════════════

/-- `brain::AgentAction` (src/brain/mod.rs).  `classification` defaults to
"GREEN" when absent from the wire. -/
structure AgentAction where
  action_type : String
  params : JsonVal
  classification : String
  reason : String
  x : Option Int
  y : Option Int
  text : Option String
  app : Option String

/-- `brain::AgentResponse` (src/brain/mod.rs). -/
structure AgentResponse where
  actions : List AgentAction
  reflection : Option String
  message : Option String
  memory_write : Option String

/-- `AgentResponse::default()`. -/
def AgentResponse.default : AgentResponse :=
  { actions := [], reflection := none, message := none, memory_write := none }

-- ═══════════════════════════════════════════════════════════════════════
-- src/action/mod.rs — the guardrail executor
-- ═══════════════════════════════════════════════════════════════════════

/-- `action::PendingConfirmation`. -/
structure PendingConfirmation where
  action_id : String
  action : AgentAction
  timestamp : String
  confirmed : Option Bool

/-- `action::ActionLogEntry`. -/
structure ActionLogEntry where
  timestamp : String
  action_type : String
  classification : String
  result : String
deriving Repr, DecidableEq

/-- The configuration part of `action::ActionExecutor` (the fields that are
set at construction and never change).  The shared mutable vectors behind
`Arc<Mutex<..>>` live in `ExecState` below. -/
structure ActionExecutor where
  dry_run : Bool
  adb_device : Option String
  restricted_apps : List String
  auto_confirm_red : Bool
deriving Repr, DecidableEq

/-- `ActionExecutor::new`: the only constructor in the source;
`auto_confirm_red` is hard-wired to `true` and no other code assigns the
field. -/
def ActionExecutor.new (dry_run : Bool) (adb_device : Option String)
    (restricted_apps : List String) : ActionExecutor :=
  { dry_run := dry_run
    adb_device := adb_device
    restricted_apps := restricted_apps
    auto_confirm_red := true }

/-- The mutable state of one executor: the pending-confirmation list, the
append-only action log, and (for the proofs) the trace of Device-Driver
invocations made through `do_action`. -/
structure ExecState where
  pending : List PendingConfirmation
  log : List ActionLogEntry
  driverCalls : List AgentAction

/-- The Device Driver (spec §2): `do_action`'s dispatch to adb / the
companion queue, consumed as an external collaborator.  An oracle mapping
the action to the `anyhow::Result<String>` the dispatch returns. -/
def Driver : Type := AgentAction → Except String String

/-- Does `action.params.get("package")` name a restricted app
(`pkg.contains(a)` over the configured list)? -/
def matchesRestricted (ex : ActionExecutor) (a : AgentAction) : Bool :=
  match (a.params.get "package").bind JsonVal.asStr with
  | some pkg => ex.restricted_apps.any (fun r => strContains pkg r)
  | none => false

/-- `ActionExecutor::effective_classification` (src/action/mod.rs:147-156). -/
def effective_classification (ex : ActionExecutor) (a : AgentAction) : String :=
  if matchesRestricted ex a then "RED" else strToUpper a.classification

/-- `ActionExecutor::log_action` (src/action/mod.rs:165-172). -/
def log_action (now : String) (a : AgentAction) (class_ result : String)
    (s : ExecState) : ExecState :=
  { s with log := s.log ++ [{ timestamp := now, action_type := a.action_type,
                              classification := class_, result := result }] }

/-- `ActionExecutor::do_action` at the Device-Driver boundary: records the
invocation and returns the driver's result. -/
def do_action (driver : Driver) (a : AgentAction) (s : ExecState) :
    Except String String × ExecState :=
  (driver a, { s with driverCalls := s.driverCalls ++ [a] })

/-- `ActionExecutor::log_dry_run` (src/action/mod.rs:158-163). -/
def log_dry_run (now : String) (a : AgentAction) (class_ : String)
    (s : ExecState) : Except String String × ExecState :=
  (.ok ("[DRY_RUN] " ++ a.action_type ++ " (" ++ class_ ++ ")"),
   log_action now a class_ "DRY_RUN" s)

/-- `ActionExecutor::execute` (src/action/mod.rs:61-124).  `id` stands for
the fresh uuid prefix, `now` for `chrono::Utc::now().to_rfc3339()`. -/
def execute (ex : ActionExecutor) (driver : Driver) (id now : String)
    (a : AgentAction) (s : ExecState) : Except String String × ExecState :=
  let classification := effective_classification ex a
  if classification = "RED" then
    -- restricted app → always queue
    if matchesRestricted ex a then
      (.ok ("PENDING:" ++ id),
       { s with pending := s.pending ++
           [{ action_id := id, action := a, timestamp := now, confirmed := none }] })
    else if ex.auto_confirm_red then
      if ex.dry_run then
        log_dry_run now a classification s
      else
        match do_action driver a s with
        | (.ok result, s') => (.ok result, log_action now a "RED-AUTO" result s')
        | (.error e, s') => (.error e, s')
    else
      (.ok ("PENDING:" ++ id),
       { s with pending := s.pending ++
           [{ action_id := id, action := a, timestamp := now, confirmed := none }] })
  else if classification = "YELLOW" then
    if ex.dry_run then
      log_dry_run now a classification s
    else
      match do_action driver a s with
      | (.ok result, s') => (.ok result, log_action now a classification result s')
      | (.error e, s') => (.error e, s')
  else if classification = "GREEN" then
    if ex.dry_run then
      log_dry_run now a classification s
    else
      match do_action driver a s with
      | (.ok result, s') => (.ok result, log_action now a classification result s')
      | (.error e, s') => (.error e, s')
  else
    (.ok "BLOCKED", s)

/-- `pending.iter_mut().find(|p| p.action_id == id)` followed by
`p.confirmed = Some(approved)`: locate the first matching entry, mark it,
return its action together with the updated list.  The entry is *not*
removed — exactly as in the source. -/
def findAndMark (id : String) (approved : Bool) :
    List PendingConfirmation → Option (AgentAction × List PendingConfirmation)
  | [] => none
  | p :: rest =>
    if p.action_id = id then
      some (p.action, { p with confirmed := some approved } :: rest)
    else
      (findAndMark id approved rest).map (fun r => (r.1, p :: r.2))

/-- `ActionExecutor::confirm` (src/action/mod.rs:127-144). -/
def confirm (driver : Driver) (action_id : String) (approved : Bool)
    (now : String) (s : ExecState) : Except String String × ExecState :=
  match findAndMark action_id approved s.pending with
  | none => (.error ("No pending action: " ++ action_id), s)
  | some (a, pending') =>
    let s' := { s with pending := pending' }
    if approved then
      match do_action driver a s' with
      | (.ok result, s'') => (.ok result, log_action now a "RED-CONFIRMED" result s'')
      | (.error e, s'') => (.error e, s'')
    else
      (.ok "DENIED", s')

-- ═══════════════════════════════════════════════════════════════════════
-- src/stuck.rs — the stuck detector
-- ═══════════════════════════════════════════════════════════════════════

/-- `stuck::StuckConfig`. -/
structure StuckConfig where
  screen_threshold : Nat
  repetition_window : Nat
  repetition_threshold : Nat
  drift_threshold : Nat
  max_recovery_attempts : Nat
  recovery_strategy : String
deriving Repr, DecidableEq

/-- `StuckConfig::default()` (src/stuck.rs:52-63). -/
def StuckConfig.default : StuckConfig :=
  { screen_threshold := 3, repetition_window := 6, repetition_threshold := 3,
    drift_threshold := 5, max_recovery_attempts := 3,
    recovery_strategy := "escalate" }

/-- `stuck::ActionFingerprint`. -/
structure ActionFingerprint where
  action_type : String
  target : String
deriving Repr, DecidableEq

/-- `stuck::StuckDetector` state.  Screen hashes are `u64`, counters `u32`;
both modelled as `Nat` (`escalation_level` uses `saturating_sub`, which is
exactly `Nat` subtraction). -/
structure StuckDetector where
  config : StuckConfig
  screen_same_count : Nat
  last_screen_hash : Nat
  recent_actions : List ActionFingerprint
  consecutive_nav_actions : Nat
  recovery_attempts : Nat
  escalation_level : Nat
deriving Repr, DecidableEq

/-- `stuck::StuckReason`. -/
inductive StuckReason where
  | screenUnchanged (consecutive : Nat)
  | actionRepetition (action : String) (count : Nat)
  | navigationDrift (consecutive : Nat)
deriving Repr, DecidableEq

/-- `stuck::RecoveryAction`. -/
inductive RecoveryAction where
  | back
  | homeAndRelaunch (app_package : Option String)
  | forceStopAndRelaunch (app_package : String)
deriving Repr, DecidableEq

/-- `stuck::StuckHint`. -/
structure StuckHint where
  reason : StuckReason
  message : String
deriving Repr, DecidableEq

/-- `stuck::StuckStatus`. -/
inductive StuckStatus where
  | ok
  | hint (h : StuckHint)
  | recover (r : RecoveryAction)
  | giveUp (msg : String)
deriving Repr, DecidableEq

/-- `StuckDetector::new` (src/stuck.rs:145-155). -/
def StuckDetector.new (config : StuckConfig) : StuckDetector :=
  { config := config, screen_same_count := 0, last_screen_hash := 0,
    recent_actions := [], consecutive_nav_actions := 0,
    recovery_attempts := 0, escalation_level := 0 }

/-- `{:?}` (derived `Debug`) on a `StuckReason`. -/
def reasonDebug : StuckReason → String
  | .screenUnchanged c =>
      "ScreenUnchanged \x7b consecutive: " ++ toString c ++ " \x7d"
  | .actionRepetition a c =>
      "ActionRepetition \x7b action: \"" ++ a ++ "\", count: "
        ++ toString c ++ " \x7d"
  | .navigationDrift c =>
      "NavigationDrift \x7b consecutive: " ++ toString c ++ " \x7d"

/-- `StuckDetector::build_stuck_context` (src/stuck.rs:238-271). -/
def build_stuck_context (reason : StuckReason) : String :=
  match reason with
  | .screenUnchanged c =>
      "\n⚠️ STUCK: The screen has not changed for " ++ toString c
        ++ " consecutive steps. Your previous actions had no visible effect. "
        ++ "Try a DIFFERENT approach:\n"
        ++ "- If a tap didn\x27t work, the element might not be clickable. "
        ++ "Try a different element.\n"
        ++ "- If you\x27re waiting for something to load, try scrolling or "
        ++ "pressing back.\n"
        ++ "- If the app is unresponsive, try force-closing and relaunching it.\n"
        ++ "- Check if there\x27s a dialog, popup, or permission prompt "
        ++ "blocking interaction."
  | .actionRepetition a c =>
      "\n⚠️ STUCK: You have repeated \x27" ++ a ++ "\x27 "
        ++ toString c ++ " times recently. This action is not making progress. "
        ++ "STOP repeating it and try something completely different:\n"
        ++ "- If tapping the same spot repeatedly, the coordinates may be "
        ++ "wrong. Re-read the UI elements list.\n"
        ++ "- If typing isn\x27t working, the input field may not be focused. "
        ++ "Tap the field first.\n"
        ++ "- Consider using a completely different path to achieve the goal."
  | .navigationDrift c =>
      "\n⚠️ STUCK: You have performed " ++ toString c
        ++ " consecutive navigation actions (back/swipe/wait) without tapping "
        ++ "or typing anything. You appear to be drifting without making "
        ++ "progress. Take a DIRECT action: tap a specific UI element or type "
        ++ "text into a field."

/-- `StuckDetector::escalate_recovery` (src/stuck.rs:321-356). -/
def escalate_recovery (d : StuckDetector) (reason : StuckReason) :
    StuckStatus × StuckDetector :=
  let d := { d with escalation_level := d.escalation_level + 1 }
  if d.escalation_level = 1 then
    (.hint { reason := reason, message := build_stuck_context reason }, d)
  else if d.escalation_level = 2 then
    (.recover .back,
     { d with screen_same_count := 0, consecutive_nav_actions := 0 })
  else
    (.recover (.homeAndRelaunch none),
     { d with screen_same_count := 0, consecutive_nav_actions := 0,
              recent_actions := [] })

/-- `StuckDetector::handle_stuck` (src/stuck.rs:290-319).  (Rust matches the
strategy string; "ask" and every unrecognized strategy fall to the hint
arm.) -/
def handle_stuck (d : StuckDetector) (reason : StuckReason) :
    StuckStatus × StuckDetector :=
  let d := { d with recovery_attempts := d.recovery_attempts + 1 }
  if d.recovery_attempts > d.config.max_recovery_attempts then
    (.giveUp ("Exhausted " ++ toString d.config.max_recovery_attempts
        ++ " recovery attempts. Last stuck reason: " ++ reasonDebug reason), d)
  else if d.config.recovery_strategy = "escalate" then
    escalate_recovery d reason
  else if d.config.recovery_strategy = "back" then
    (.recover .back, d)
  else if d.config.recovery_strategy = "restart" then
    (.recover (.homeAndRelaunch none), d)
  else
    (.hint { reason := reason, message := build_stuck_context reason }, d)

/-- `StuckDetector::check_screen` (src/stuck.rs:159-187). -/
def check_screen (d : StuckDetector) (screen_hash : Nat) :
    StuckStatus × StuckDetector :=
  if screen_hash = d.last_screen_hash ∧ d.last_screen_hash ≠ 0 then
    let d := { d with screen_same_count := d.screen_same_count + 1 }
    if d.screen_same_count ≥ d.config.screen_threshold then
      handle_stuck d (.screenUnchanged d.screen_same_count)
    else
      (.ok, d)
  else
    let d := { d with screen_same_count := 0, last_screen_hash := screen_hash }
    if d.escalation_level > 0 then
      (.ok, { d with escalation_level := d.escalation_level - 1 })
    else
      (.ok, d)

/-- Rust `str::to_lowercase`, modelled character-wise (agrees with
`char::to_lowercase` on the ASCII error patterns `classify` matches). -/
def strToLower (s : String) : String := String.mk (s.data.map Char.toLower)

/-- `fallback::ModelConfig`. -/
structure ModelConfig where
  backend : String
  model : String
  endpoint : String
  api_key : String
  vision_enabled : Bool
deriving Repr, DecidableEq

/-- `fallback::FallbackConfig`. -/
structure FallbackConfig where
  fallback_on_rate_limit : Bool
  fallback_on_auth_error : Bool
  fallback_on_timeout : Bool
  fallback_cooldown_secs : Nat
  fallbacks : List ModelConfig
deriving Repr, DecidableEq

/-- `fallback::ErrorClass`. -/
inductive ErrorClass where
  | rateLimit
  | authError
  | timeout
  | serverError
  | clientError
  | networkError
  | unknown
deriving Repr, DecidableEq

/-- `ErrorClass::classify` (src/fallback.rs:98-169): case-insensitive
substring patterns, first match wins. -/
def ErrorClass.classify (error : String) : ErrorClass :=
  let lower := strToLower error
  if strContains lower "429" ∨ strContains lower "rate limit" ∨
     strContains lower "rate_limit" ∨ strContains lower "too many requests" ∨
     strContains lower "quota exceeded" ∨
     strContains lower "tokens per minute" ∨
     strContains lower "requests per minute" then
    .rateLimit
  else if strContains lower "401" ∨ strContains lower "403" ∨
     strContains lower "unauthorized" ∨ strContains lower "forbidden" ∨
     strContains lower "invalid api key" ∨
     strContains lower "invalid_api_key" ∨
     strContains lower "authentication" ∨ strContains lower "billing" ∨
     strContains lower "insufficient_quota" then
    .authError
  else if strContains lower "timeout" ∨ strContains lower "timed out" ∨
     strContains lower "deadline exceeded" ∨
     strContains lower "request took too long" then
    .timeout
  else if strContains lower "500" ∨ strContains lower "502" ∨
     strContains lower "503" ∨ strContains lower "504" ∨
     strContains lower "internal server error" ∨
     strContains lower "bad gateway" ∨
     strContains lower "service unavailable" ∨
     strContains lower "overloaded" then
    .serverError
  else if strContains lower "400" ∨ strContains lower "invalid request" ∨
     strContains lower "model not found" ∨
     strContains lower "context_length_exceeded" ∨
     strContains lower "max.*token" then
    .clientError
  else if strContains lower "connection refused" ∨ strContains lower "dns" ∨
     strContains lower "network" ∨ strContains lower "unreachable" then
    .networkError
  else
    .unknown

/-- `ErrorClass::should_fallback` (src/fallback.rs:172-182). -/
def ErrorClass.should_fallback (c : ErrorClass) (config : FallbackConfig) : Bool :=
  match c with
  | .rateLimit => config.fallback_on_rate_limit
  | .authError => config.fallback_on_auth_error
  | .timeout => config.fallback_on_timeout
  | .serverError => true
  | .networkError => true
  | .clientError => false
  | .unknown => false

/-- `fallback::FallbackManager`.  `Instant`s are modelled as `Nat` seconds;
each method takes a `now` parameter standing for `Instant::now()`, and
`when.elapsed()` is `now - when` (time is monotone, so the truncated `Nat`
subtraction agrees). -/
structure FallbackManager where
  config : FallbackConfig
  primary : ModelConfig
  cooldowns : List (String × Nat)
  current_index : Int
  total_fallbacks : Nat
deriving Repr, DecidableEq

/-- The `format!("\x7b\x7d/\x7b\x7d", backend, model)` cooldown key. -/
def modelKey (m : ModelConfig) : String := m.backend ++ "/" ++ m.model

/-- `FallbackManager::new` (src/fallback.rs:205-213). -/
def FallbackManager.new (primary : ModelConfig) (config : FallbackConfig) :
    FallbackManager :=
  { config := config, primary := primary, cooldowns := [],
    current_index := -1, total_fallbacks := 0 }

/-- `FallbackManager::active_model` (src/fallback.rs:217-226). -/
def active_model (fm : FallbackManager) : ModelConfig :=
  if fm.current_index < 0 then
    fm.primary
  else
    match fm.config.fallbacks.get? fm.current_index.toNat with
    | some m => m
    | none => fm.primary

/-- The per-candidate cooldown test inside `advance_to_next`:
`cooldowns.iter().find(..).map(|(_, when)| when.elapsed() < cooldown)
.unwrap_or(false)` — note `find` returns the *first* (oldest) entry for the
key. -/
def onCooldown (cooldowns : List (String × Nat)) (key : String)
    (now cooldown : Nat) : Bool :=
  match cooldowns.find? (fun kv => kv.1 = key) with
  | some kv => decide (now - kv.2 < cooldown)
  | none => false

/-- The `cooldowns.iter().find(..).map(|(_, when)| when.elapsed() >=
cooldown).unwrap_or(true)` primary-readiness test. -/
def primaryReady (cooldowns : List (String × Nat)) (key : String)
    (now cooldown : Nat) : Bool :=
  match cooldowns.find? (fun kv => kv.1 = key) with
  | some kv => decide (now - kv.2 ≥ cooldown)
  | none => true

/-- The `for i in start..fallbacks.len()` scan of `advance_to_next`,
written structurally: `i` is the absolute index of the head of `rest`
(which is `fallbacks.drop start` at the call site). -/
def findAvailableAux (cooldowns : List (String × Nat)) (now cooldown : Nat) :
    Nat → List ModelConfig → Option (Nat × ModelConfig)
  | _, [] => none
  | i, c :: rest =>
    if onCooldown cooldowns (modelKey c) now cooldown then
      findAvailableAux cooldowns now cooldown (i + 1) rest
    else
      some (i, c)

/-- `FallbackManager::advance_to_next` (src/fallback.rs:317-365). -/
def advance_to_next (fm : FallbackManager) (now : Nat) :
    Option ModelConfig × FallbackManager :=
  let cooldown := fm.config.fallback_cooldown_secs
  let start : Nat := if fm.current_index < 0 then 0 else (fm.current_index + 1).toNat
  match findAvailableAux fm.cooldowns now cooldown start
      (fm.config.fallbacks.drop start) with
  | some (i, candidate) =>
    (some candidate,
     { fm with current_index := (i : Int),
               total_fallbacks := fm.total_fallbacks + 1 })
  | none =>
    if primaryReady fm.cooldowns (modelKey fm.primary) now cooldown ∧
       fm.current_index ≥ 0 then
      (some fm.primary, { fm with current_index := -1 })
    else
      (none, fm)

/-- `FallbackManager::report_failure` (src/fallback.rs:240-262). -/
def report_failure (fm : FallbackManager) (error : String) (now : Nat) :
    Option ModelConfig × FallbackManager :=
  let error_class := ErrorClass.classify error
  if error_class.should_fallback fm.config then
    let key := modelKey (active_model fm)
    let fm := { fm with cooldowns := fm.cooldowns ++ [(key, now)] }
    advance_to_next fm now
  else
    (none, fm)

/-- `FallbackManager::check_primary_recovery` (src/fallback.rs:266-289). -/
def check_primary_recovery (fm : FallbackManager) (now : Nat) :
    FallbackManager :=
  if fm.current_index < 0 then
    fm
  else
    let primary_key := modelKey fm.primary
    if primaryReady fm.cooldowns primary_key now fm.config.fallback_cooldown_secs then
      { fm with current_index := -1,
                cooldowns := fm.cooldowns.filter (fun kv => ¬ kv.1 = primary_key) }
    else
      fm

-- ═══════════════════════════════════════════════════════════════════════
-- Shared string helpers for the perception layer
-- ═══════════════════════════════════════════════════════════════════════

/-- Rust `char::is_whitespace` (the Unicode `White_Space` property). -/
def rustIsWhitespace (c : Char) : Bool :=
  let n := c.toNat
  (0x09 ≤ n ∧ n ≤ 0x0D) ∨ n = 0x20 ∨ n = 0x85 ∨ n = 0xA0 ∨ n = 0x1680 ∨
  (0x2000 ≤ n ∧ n ≤ 0x200A) ∨ n = 0x2028 ∨ n = 0x2029 ∨ n = 0x202F ∨
  n = 0x205F ∨ n = 0x3000

/-- Rust `str::trim` on a character list. -/
def trimChars (s : List Char) : List Char :=
  ((s.dropWhile rustIsWhitespace).reverse.dropWhile rustIsWhitespace).reverse

/-- Split a character list at every occurrence of `c` (Rust `str::split`,
which keeps empty pieces). -/
def splitOnChar (c : Char) : List Char → List (List Char)
  | [] => [[]]
  | x :: rest =>
    match splitOnChar c rest with
    | [] => if x = c then [[], []] else [[x]]
    | piece :: more =>
      if x = c then [] :: piece :: more else (x :: piece) :: more

/-- The digits of a decimal literal folded to a `Nat`. -/
def foldDigits (ds : List Char) : Nat :=
  ds.foldl (fun acc c => acc * 10 + (c.toNat - 48)) 0

/-- All-digit check plus nonemptiness, the body of an integer literal. -/
def parseDigits (ds : List Char) : Option Nat :=
  if ds ≠ [] ∧ ds.all Char.isDigit then some (foldDigits ds) else none

/-- Rust `str::parse::<i32>()`: optional sign, decimal digits, `i32`
range check. -/
def parseI32 (s : List Char) : Option Int :=
  match s with
  | '-' :: ds =>
    match parseDigits ds with
    | some n => if n ≤ 2147483648 then some (-(n : Int)) else none
    | none => none
  | '+' :: ds =>
    match parseDigits ds with
    | some n => if n ≤ 2147483647 then some (n : Int) else none
    | none => none
  | ds =>
    match parseDigits ds with
    | some n => if n ≤ 2147483647 then some (n : Int) else none
    | none => none

/-- The part of `s` after the last occurrence of `c`, when `c` occurs
(Rust `str::rsplit_once(c)` keeping only the suffix). -/
def afterLastOpt (c : Char) (s : String) : Option String :=
  match splitOnChar c s.data with
  | [] => none
  | [_] => none
  | piece :: more => some (String.mk ((piece :: more).getLast (by simp)))

/-- Rust `s.rsplit(c).next().unwrap_or(..)`: the part after the last
occurrence of `c`, or `s` itself when `c` does not occur. -/
def afterLastOrSelf (c : Char) (s : String) : String :=
  (afterLastOpt c s).getD s

/-- One bounded step of Rust `str::replace` (non-overlapping, left to
right).  The fuel is the string length: every step consumes at least one
character, so the fuel never runs out on the real input. -/
def replaceSubAux (pat rep : List Char) : Nat → List Char → List Char
  | _, [] => []
  | 0, s => s
  | fuel + 1, c :: rest =>
    if pat.isPrefixOf (c :: rest) ∧ pat ≠ [] then
      rep ++ replaceSubAux pat rep fuel ((c :: rest).drop pat.length)
    else
      c :: replaceSubAux pat rep fuel rest

/-- Rust `str::replace`. -/
def strReplace (s pat rep : String) : String :=
  String.mk (replaceSubAux pat.data rep.data s.data.length s.data)

-- ═══════════════════════════════════════════════════════════════════════
-- src/perception/mod.rs — parse_ui_elements
--
-- The XML tokenizer (`xml.split("<node ")` plus the `attr="value"` scan of
-- `xml_attr`) is abstracted: a UI dump is the list of `<node ` tags in
-- document order, each tag being its attribute association list.  From
-- there down every filter, score, sort, truncation and index assignment is
-- translated from the source.
-- ═══════════════════════════════════════════════════════════════════════

/-- One `<node ...>` tag: its attributes in document order. -/
def NodeTag : Type := List (String × String)

/-- `perception::xml_attr` (src/perception/mod.rs:707-718): the attribute
value, with `None` standing both for a missing attribute and an empty
value. -/
def xml_attr (tag : NodeTag) (attr : String) : Option String :=
  match tag.find? (fun kv => kv.1 = attr) with
  | some kv => if kv.2 = "" then none else some kv.2
  | none => none

/-- `[left, top, right, bottom]`. -/
structure Bounds4 where
  b0 : Int
  b1 : Int
  b2 : Int
  b3 : Int
deriving Repr, DecidableEq

/-- `perception::parse_bounds` (src/perception/mod.rs:720-732):
`replace('[', "").replace(']', ",")`, split on commas, keep the pieces that
parse as `i32`, default `[0,0,0,0]`. -/
def p_parse_bounds (bounds : String) : Bounds4 :=
  let cleaned := (bounds.data.filter (fun c => ¬ c = '[')).map
    (fun c => if c = ']' then ',' else c)
  let nums := (splitOnChar ',' cleaned).filterMap
    (fun piece => parseI32 (trimChars piece))
  match nums with
  | n0 :: n1 :: n2 :: n3 :: _ => { b0 := n0, b1 := n1, b2 := n2, b3 := n3 }
  | _ => { b0 := 0, b1 := 0, b2 := 0, b3 := 0 }

/-- `perception::UiElement`.  The `f32` score only ever receives constant
increments that are multiples of 0.5, so it is held exactly as an `Int` in
half-units (score × 2); `f32` addition of these constants is exact, and the
two area-threshold comparisons agree with exact integer arithmetic (area
products are exact below 2²⁴ and far above both thresholds beyond it). -/
structure PUiElement where
  index : Nat
  class_ : String
  text : String
  desc : String
  resource_id : String
  center_x : Int
  center_y : Int
  bounds : Bounds4
  clickable : Bool
  editable : Bool
  focused : Bool
  scrollable : Bool
  checked : Option Bool
  enabled : Bool
  score : Int
deriving Repr, DecidableEq

/-- `perception::score_element` (src/perception/mod.rs:627-661), in
half-units. -/
def p_score_element (text desc resource_id class_ : String)
    (clickable editable focused scrollable enabled : Bool)
    (bounds : Bounds4) : Int :=
  let classBoost : Int :=
    if class_ = "Button" ∨ class_ = "ImageButton" then 4
    else if class_ = "EditText" ∨ class_ = "AutoCompleteTextView" then 6
    else if class_ = "CheckBox" ∨ class_ = "Switch" ∨
            class_ = "ToggleButton" ∨ class_ = "RadioButton" then 4
    else if class_ = "TextView" then 1
    else if class_ = "RecyclerView" ∨ class_ = "ListView" ∨
            class_ = "ScrollView" then 1
    else 0
  let w := bounds.b2 - bounds.b0
  let h := bounds.b3 - bounds.b1
  let area := w * h
  (if ¬ text = "" then (6 : Int) else 0) +
  (if ¬ desc = "" then 4 else 0) +
  (if ¬ resource_id = "" then 2 else 0) +
  (if clickable then 8 else 0) +
  (if editable then 10 else 0) +
  (if focused then 6 else 0) +
  (if scrollable then 3 else 0) +
  (if ¬ enabled then -4 else 0) +
  classBoost +
  (if area > 50000 then 2 else 0) +
  (if area > 200000 then 1 else 0) +
  (if w < 20 ∨ h < 20 then -6 else 0)

/-- The per-tag body of the `for chunk in xml.split("<node ")` loop
(src/perception/mod.rs:520-604): extract the attributes, apply the
usefulness and nonzero-area filters, build the element. -/
def pParseNode (tag : NodeTag) : Option PUiElement :=
  let text := (xml_attr tag "text").getD ""
  let desc := (xml_attr tag "content-desc").getD ""
  let resource_id :=
    ((afterLastOpt '/' ((xml_attr tag "resource-id").getD ""))).getD ""
  let class_full := (xml_attr tag "class").getD ""
  let class_short := (afterLastOpt '.' class_full).getD class_full
  let clickable := ((xml_attr tag "clickable").map (fun v => v == "true")).getD false
  let focused := ((xml_attr tag "focused").map (fun v => v == "true")).getD false
  let scrollable := ((xml_attr tag "scrollable").map (fun v => v == "true")).getD false
  let enabled := ((xml_attr tag "enabled").map (fun v => v == "true")).getD true
  let checked := (xml_attr tag "checked").map (fun v => v == "true")
  let bounds_arr := p_parse_bounds ((xml_attr tag "bounds").getD "")
  let password := ((xml_attr tag "password").map (fun v => v == "true")).getD false
  let editable := strContains class_full "EditText" ||
                  strContains class_full "AutoCompleteTextView" || password
  let has_info := !(text == "") || !(desc == "") || clickable || editable ||
                  !(resource_id == "") || focused || scrollable
  let has_area := decide (bounds_arr.b2 > bounds_arr.b0) &&
                  decide (bounds_arr.b3 > bounds_arr.b1)
  if !has_info || !has_area then
    none
  else
    some
      { index := 0
        class_ := class_short
        text := String.mk (text.data.take 100)
        desc := String.mk (desc.data.take 80)
        resource_id := resource_id
        center_x := Int.tdiv (bounds_arr.b0 + bounds_arr.b2) 2
        center_y := Int.tdiv (bounds_arr.b1 + bounds_arr.b3) 2
        bounds := bounds_arr
        clickable := clickable
        editable := editable
        focused := focused
        scrollable := scrollable
        checked := checked
        enabled := enabled
        score := p_score_element text desc resource_id class_short
                   clickable editable focused scrollable enabled bounds_arr }

/-- `MAX_ELEMENTS` (src/perception/mod.rs:101). -/
def MAX_ELEMENTS : Nat := 40

/-- The descending-score comparator of the first `sort_by`
(`b.score.partial_cmp(&a.score).unwrap_or(Equal)`). -/
def pScoreGe (a b : PUiElement) : Prop := b.score ≤ a.score

instance : DecidableRel pScoreGe :=
  fun a b => inferInstanceAs (Decidable (b.score ≤ a.score))

instance : IsTotal PUiElement pScoreGe :=
  ⟨fun a b => le_total b.score a.score⟩

instance : IsTrans PUiElement pScoreGe :=
  ⟨fun _ _ _ h1 h2 => le_trans h2 h1⟩

/-- The reading-order comparator of the second `sort_by`
(`a.center_y.cmp(&b.center_y).then(a.center_x.cmp(&b.center_x))`). -/
def pPosLe (a b : PUiElement) : Prop :=
  a.center_y < b.center_y ∨ (a.center_y = b.center_y ∧ a.center_x ≤ b.center_x)

instance : DecidableRel pPosLe :=
  fun _ _ => inferInstanceAs (Decidable (_ ∨ _))

instance : IsTotal PUiElement pPosLe := by
  constructor
  intro a b
  rcases lt_trichotomy a.center_y b.center_y with h | h | h
  · exact Or.inl (Or.inl h)
  · rcases le_total a.center_x b.center_x with hx | hx
    · exact Or.inl (Or.inr ⟨h, hx⟩)
    · exact Or.inr (Or.inr ⟨h.symm, hx⟩)
  · exact Or.inr (Or.inl h)

instance : IsTrans PUiElement pPosLe := by
  constructor
  rintro a b c (h1 | ⟨h1, h1x⟩) (h2 | ⟨h2, h2x⟩)
  · exact Or.inl (h1.trans h2)
  · exact Or.inl (h2 ▸ h1)
  · exact Or.inl (h1 ▸ h2)
  · exact Or.inr ⟨h1.trans h2, h1x.trans h2x⟩

/-- `for (i, el) in elements.iter_mut().enumerate() \x7b el.index = i + 1 \x7d`
starting at `n`. -/
def pReindexFrom : Nat → List PUiElement → List PUiElement
  | _, [] => []
  | n, e :: es => { e with index := n } :: pReindexFrom (n + 1) es

/-- `perception::parse_ui_elements` (src/perception/mod.rs:509-624).
Rust's `sort_by` is a stable sort; under a total preorder a stable sort
has a unique result, which `List.insertionSort` computes for the same
comparator. -/
def parse_ui_elements (nodes : List NodeTag) : List PUiElement :=
  let all_elements := nodes.filterMap pParseNode
  let sorted := all_elements.insertionSort pScoreGe
  let top := sorted.take MAX_ELEMENTS
  let positioned := top.insertionSort pPosLe
  pReindexFrom 1 positioned

-- ═══════════════════════════════════════════════════════════════════════
-- src/sanitizer.rs — parse_accessibility_xml and the vision-fallback rule
--
-- The same tag abstraction as for src/perception/mod.rs.  `get_attr`
-- differs from `xml_attr`: a present-but-empty value stays `Some("")`, and
-- the value is XML-entity decoded.  The `foreground_package` field (a
-- `HashMap` `max_by_key`, whose tie-breaking follows the nondeterministic
-- hash iteration order) is not modelled; no claim depends on it.
-- ═══════════════════════════════════════════════════════════════════════

/-- `sanitizer::get_attr` (src/sanitizer.rs:572-589). -/
def get_attr (tag : NodeTag) (name : String) : Option String :=
  (tag.find? (fun kv => kv.1 = name)).map (fun kv =>
    strReplace (strReplace (strReplace (strReplace (strReplace (strReplace
      (strReplace kv.2 "&amp;" "&") "&lt;" "<") "&gt;" ">")
      "&quot;" "\"") "&apos;" "\x27") "&#10;" "\n") "&#13;" "\r")

/-- `sanitizer::get_bool_attr` (src/sanitizer.rs:592-596). -/
def get_bool_attr (tag : NodeTag) (name : String) : Bool :=
  ((get_attr tag name).map (fun v => v == "true")).getD false

/-- `sanitizer::parse_bounds` (src/sanitizer.rs:542-568): scan digit/minus
runs, parse each as `i32`, require at least four numbers. -/
def s_parse_bounds (str : String) : Option Bounds4 :=
  let runs := (splitOnChar '\x00'
    (str.data.map (fun c => if c.isDigit ∨ c = '-' then c else '\x00')))
  let nums := runs.filterMap parseI32
  match nums with
  | n0 :: n1 :: n2 :: n3 :: _ => some { b0 := n0, b1 := n1, b2 := n2, b3 := n3 }
  | _ => none

/-- `sanitizer::UiElement`.  Every constant contribution to the `f32`
score is an integer multiple of 0.02, so scores are held as `Int` in
units of 1/50; the one non-constant contribution, the
`(area.ln() * 0.5).min(5.0)` size bonus, is an oracle parameter `lnTerm`
in the same units (consulted exactly when `area > 100`, as in the source —
no statement proved below depends on its value: the concrete inputs used
keep every area at or below 100, and the count/index results hold for
every comparator outcome). -/
structure SUiElement where
  index : Nat
  class_ : String
  class_short : String
  text : String
  content_desc : String
  resource_id : String
  resource_id_short : String
  package : String
  clickable : Bool
  long_clickable : Bool
  focusable : Bool
  scrollable : Bool
  checkable : Bool
  checked : Bool
  enabled : Bool
  selected : Bool
  editable : Bool
  bounds : Bounds4
  center : Int × Int
  score : Int
deriving Repr, DecidableEq

/-- `sanitizer::parse_node_tag` (src/sanitizer.rs:470-539); `None` exactly
when the bounds attribute does not yield four numbers. -/
def s_parse_node_tag (tag : NodeTag) (index : Nat) : Option SUiElement :=
  let text := (get_attr tag "text").getD ""
  let content_desc := (get_attr tag "content-desc").getD ""
  let resource_id := (get_attr tag "resource-id").getD ""
  let class_ := (get_attr tag "class").getD ""
  let package := (get_attr tag "package").getD ""
  let bounds_str := (get_attr tag "bounds").getD ""
  match s_parse_bounds bounds_str with
  | none => none
  | some bounds =>
    let cx := Int.tdiv (bounds.b0 + bounds.b2) 2
    let cy := Int.tdiv (bounds.b1 + bounds.b3) 2
    let clickable := get_bool_attr tag "clickable"
    let long_clickable := get_bool_attr tag "long-clickable"
    let focusable := get_bool_attr tag "focusable"
    let scrollable := get_bool_attr tag "scrollable"
    let checkable := get_bool_attr tag "checkable"
    let checked := get_bool_attr tag "checked"
    let enabled := get_bool_attr tag "enabled"
    let selected := get_bool_attr tag "selected"
    let password := get_bool_attr tag "password"
    let class_lower := strToLower class_
    let editable := strContains class_lower "edittext" ||
                    strContains class_lower "searchview" ||
                    strContains class_lower "autocompletextview" || password
    some
      { index := index
        class_ := class_
        class_short := afterLastOrSelf '.' class_
        text := text
        content_desc := content_desc
        resource_id := resource_id
        resource_id_short := afterLastOrSelf '/' resource_id
        package := package
        clickable := clickable
        long_clickable := long_clickable
        focusable := focusable
        scrollable := scrollable
        checkable := checkable
        checked := checked
        enabled := enabled
        selected := selected
        editable := editable
        bounds := bounds
        center := (cx, cy)
        score := 0 }

/-- `sanitizer::is_useful_element` (src/sanitizer.rs:443-465). -/
def is_useful_element (e : SUiElement) : Bool :=
  if e.clickable || e.editable || e.long_clickable || e.scrollable ||
     e.checkable then
    true
  else if !(e.text == "") || !(e.content_desc == "") then
    decide (e.bounds.b2 - e.bounds.b0 > 0) &&
    decide (e.bounds.b3 - e.bounds.b1 > 0)
  else
    false

/-- Rust `str::len`: the UTF-8 byte length. -/
def utf8Len (s : String) : Nat := (s.data.map Char.utf8Size).sum

/-- `sanitizer::score_element` (src/sanitizer.rs:359-440), in units of
1/50.  `lnTerm area` stands for `(area.ln() * 0.5).min(5.0)` (an `f32`
value, hence a rational in these proofs all of whose uses are opaque);
every other contribution is a small constant or `0.02` per text byte,
exact in `f32`. -/
def s_score_element (lnTerm : Int → Int) (e : SUiElement) : Int :=
  let w := max (e.bounds.b2 - e.bounds.b0) 0
  let h := max (e.bounds.b3 - e.bounds.b1) 0
  let area := w * h
  let class_lower := strToLower e.class_short
  (if e.clickable then (500 : Int) else 0) +
  (if e.editable then 600 else 0) +
  (if e.long_clickable then 250 else 0) +
  (if e.focusable then 150 else 0) +
  (if e.scrollable then 200 else 0) +
  (if e.checkable then 300 else 0) +
  (if !(e.text == "") then 250 + (min (utf8Len e.text) 100 : Int) else 0) +
  (if !(e.content_desc == "") then 150 else 0) +
  (if !(e.resource_id == "") then 50 else 0) +
  (if area > 100 then lnTerm area else 0) +
  (if area < 10 then -500 else 0) +
  (if e.bounds.b0 < -10 ∨ e.bounds.b1 < -10 then -1000 else 0) +
  (if ¬ e.clickable ∧ ¬ e.editable ∧
      (class_lower = "framelayout" ∨ class_lower = "linearlayout" ∨
       class_lower = "relativelayout" ∨ class_lower = "constraintlayout" ∨
       class_lower = "view") then -750 else 0) +
  (if class_lower = "button" ∨ class_lower = "imagebutton" then 150
   else if class_lower = "edittext" then 200
   else if class_lower = "checkbox" ∨ class_lower = "switch" ∨
           class_lower = "radiobutton" ∨ class_lower = "togglebutton" then 150
   else if class_lower = "searchview" then 250
   else 0) +
  (if ¬ e.enabled then -250 else 0)

/-- The `while pos < len` collection loop of `parse_accessibility_xml`
(src/sanitizer.rs:140-170): parse each tag, keep the useful elements,
incrementing the running index only for kept ones. -/
def collectUseful : Nat → List NodeTag → List SUiElement
  | _, [] => []
  | idx, t :: rest =>
    match s_parse_node_tag t idx with
    | some e =>
      if is_useful_element e then e :: collectUseful (idx + 1) rest
      else collectUseful idx rest
    | none => collectUseful idx rest

/-- The interactive-element predicate of the fallback threshold
(src/sanitizer.rs:175-178). -/
def sInteractive (e : SUiElement) : Bool :=
  e.clickable || e.focusable || e.editable || e.long_clickable || e.scrollable

/-- `DEFAULT_MAX_ELEMENTS` (src/sanitizer.rs:104). -/
def DEFAULT_MAX_ELEMENTS : Nat := 50

/-- `VISION_FALLBACK_THRESHOLD` (src/sanitizer.rs:108). -/
def VISION_FALLBACK_THRESHOLD : Nat := 5

/-- The descending-score comparator of the sanitizer's `sort_by`. -/
def sScoreGe (a b : SUiElement) : Prop := b.score ≤ a.score

instance : DecidableRel sScoreGe :=
  fun a b => inferInstanceAs (Decidable (b.score ≤ a.score))

instance : IsTotal SUiElement sScoreGe :=
  ⟨fun a b => le_total b.score a.score⟩

instance : IsTrans SUiElement sScoreGe :=
  ⟨fun _ _ _ h1 h2 => le_trans h2 h1⟩

/-- The sanitizer's 1-based re-index pass. -/
def sReindexFrom : Nat → List SUiElement → List SUiElement
  | _, [] => []
  | n, e :: es => { e with index := n } :: sReindexFrom (n + 1) es

/-- `sanitizer::SanitizedScreen` (without `foreground_package`, see the
section comment). -/
structure SanitizedScreen where
  elements : List SUiElement
  total_found : Nat
  needs_vision_fallback : Bool
  raw_count : Nat
  interactive_count : Nat
deriving Repr, DecidableEq

/-- `sanitizer::parse_accessibility_xml` (src/sanitizer.rs:129-228). -/
def parse_accessibility_xml (lnTerm : Int → Int) (nodes : List NodeTag)
    (max_elements : Nat) : SanitizedScreen :=
  let elements := collectUseful 0 nodes
  let raw_count := elements.length
  let interactive_count := (elements.filter sInteractive).length
  let scored := elements.map (fun e => { e with score := s_score_element lnTerm e })
  let sorted := scored.insertionSort sScoreGe
  let total_found := sorted.length
  let max := if max_elements = 0 then DEFAULT_MAX_ELEMENTS else max_elements
  let truncated := sorted.take max
  let needs_vision_fallback := decide (interactive_count < VISION_FALLBACK_THRESHOLD)
  { elements := sReindexFrom 1 truncated
    total_found := total_found
    needs_vision_fallback := needs_vision_fallback
    raw_count := raw_count
    interactive_count := interactive_count }

/-- Steps 1-2 of `sanitizer::perceive_screen` (src/sanitizer.rs:745-762):
a missing tree degrades to the empty screen with
`needs_vision_fallback = true`. -/
def perceive_screen_parse (lnTerm : Int → Int) (tree_xml : Option (List NodeTag))
    (max_elements : Nat) : SanitizedScreen :=
  match tree_xml with
  | some nodes => parse_accessibility_xml lnTerm nodes max_elements
  | none =>
    { elements := [], total_found := 0, needs_vision_fallback := true,
      raw_count := 0, interactive_count := 0 }

/-- The interaction-flagged element count of a dump, as computed before
scoring and truncation. -/
def interactiveCountOf (nodes : List NodeTag) : Nat :=
  ((collectUseful 0 nodes).filter sInteractive).length

-- ═══════════════════════════════════════════════════════════════════════
-- src/brain/mod.rs — the layered response parser
--
-- Strings are modelled as character lists (`Str`) with explicit UTF-8 byte
-- accounting: Rust `&str` slicing panics on a byte offset that is not a
-- character boundary, and `extract_json` produces such offsets (it slices
-- with indices from `chars().enumerate()`, i.e. character counts).  A
-- panicking computation is an `Except.error ()`.  The two `serde_json`
-- decodes (`try_parse_json`, and the per-object decode of
-- `extract_partial_actions`) are external-crate calls, passed in as
-- oracles.  `find`/`rfind` return byte offsets in Rust; every use either
-- slices at the found occurrence or adds the byte length of an ASCII
-- needle, so the character-position translation used here slices the same
-- text.
-- ═══════════════════════════════════════════════════════════════════════

/-- A Rust string as its character list. -/
abbrev Str := List Char

/-- Is byte offset `n` a character boundary (or the end) of the UTF-8
encoding of `s`? -/
def isCharBoundary : Str → Nat → Bool
  | _, 0 => true
  | [], _ + 1 => false
  | c :: cs, n + 1 =>
    if n + 1 < c.utf8Size then false
    else isCharBoundary cs (n + 1 - c.utf8Size)

/-- The character prefix of `s` covering exactly the byte range `[0, n)`,
or `none` when `n` is not a character boundary — where Rust slicing
panics. -/
def takeBytes : Str → Nat → Option Str
  | _, 0 => some []
  | [], _ + 1 => none
  | c :: cs, n + 1 =>
    if n + 1 < c.utf8Size then none
    else (takeBytes cs (n + 1 - c.utf8Size)).map (fun r => c :: r)

/-- First occurrence of `pat` in the suffix of the haystack, reported as a
character position offset by `i`. -/
def findSubAux (pat : Str) : Nat → Str → Option Nat
  | i, [] => if pat.isPrefixOf [] then some i else none
  | i, s@(_ :: rest) =>
    if pat.isPrefixOf s then some i else findSubAux pat (i + 1) rest

/-- Rust `str::find(pat)`, as a character position. -/
def findSub (hay pat : Str) : Option Nat := findSubAux pat 0 hay

/-- Rust `str::contains(pat)`. -/
def containsSub (hay pat : Str) : Bool := (findSub hay pat).isSome

/-- Last occurrence of a character (Rust `str::rfind(char)`), as a
character position. -/
def lastIdxOfAux (c : Char) : Nat → Option Nat → Str → Option Nat
  | _, acc, [] => acc
  | i, acc, x :: rest => lastIdxOfAux c (i + 1) (if x = c then some i else acc) rest

/-- Rust `str::rfind(char)`. -/
def lastIdxOf (c : Char) (s : Str) : Option Nat := lastIdxOfAux c 0 none s

/-- Rust `str::trim_end`. -/
def trimEndChars (s : Str) : Str :=
  (s.reverse.dropWhile rustIsWhitespace).reverse

/-- One `str::replace(char, str)` pass. -/
def replaceChar (c : Char) (rep : Str) (s : Str) : Str :=
  s.flatMap (fun x => if x = c then rep else [x])

/-- The whitespace lookahead of the trailing-comma cleanup
(src/brain/mod.rs:846-861): does the next non-blank byte close an object
or array?  (The Rust loop walks bytes; every byte it inspects is ASCII and
UTF-8 continuation bytes cannot collide with ASCII, so the character-level
scan is identical.) -/
def nextNonWsIsClose : Str → Bool
  | [] => false
  | c :: rest =>
    if c = ' ' ∨ c = '\n' ∨ c = '\r' ∨ c = '\t' then nextNonWsIsClose rest
    else c == '}' || c == ']'

/-- The trailing-comma removal loop of `sanitize_llm_json`. -/
def stripTrailingCommas : Str → Str
  | [] => []
  | c :: rest =>
    if c = ',' ∧ nextNonWsIsClose rest then stripTrailingCommas rest
    else c :: stripTrailingCommas rest

/-- `brain::sanitize_llm_json` (src/brain/mod.rs:822-868).  The final
`String::from_utf8(cleaned).unwrap_or(s)` cannot fail — the loop only
drops whole ASCII characters — so it is the cleaned text. -/
def sanitize_llm_json (text : Str) : Str :=
  let s := replaceChar (Char.ofNat 0x201C) ['\\', '"'] text
  let s := replaceChar (Char.ofNat 0x201D) ['\\', '"'] s
  let s := replaceChar (Char.ofNat 0x2018) [Char.ofNat 0x27] s
  let s := replaceChar (Char.ofNat 0x2019) [Char.ofNat 0x27] s
  let s := replaceChar (Char.ofNat 0xAB) ['\\', '"'] s
  let s := replaceChar (Char.ofNat 0xBB) ['\\', '"'] s
  let s := replaceChar (Char.ofNat 0x2014) ['-'] s
  let s := replaceChar (Char.ofNat 0x2013) ['-'] s
  let s := replaceChar (Char.ofNat 0xA0) [' '] s
  let s := replaceChar (Char.ofNat 0xFEFF) [] s
  stripTrailingCommas s

/-- The balanced-brace scan of `extract_json`: the loop counts `\x7b`/`\x7d`
over `chars().enumerate()` and reports the *character* index at which the
depth returns to zero.  Depth is an `i32`. -/
def scanBalancedAux : Nat → Int → Str → Option Nat
  | _, _, [] => none
  | i, depth, c :: rest =>
    if c = '{' then scanBalancedAux (i + 1) (depth + 1) rest
    else if c = '}' then
      if depth - 1 = 0 then some i else scanBalancedAux (i + 1) (depth - 1) rest
    else scanBalancedAux (i + 1) depth rest

/-- The three-backtick fence. -/
def fence : Str := [Char.ofNat 0x60, Char.ofNat 0x60, Char.ofNat 0x60]

/-- The ` ```json ` fence opener (7 ASCII bytes). -/
def fenceJson : Str := fence ++ ['j', 's', 'o', 'n']

/-- `extract_json`, last branch (src/brain/mod.rs:1007-1022): first `\x7b`
anywhere, balanced span from there; `text[start..start + i + 1]` adds a
*character* count `i + 1` to the byte offset `start`, so the end offset
may fall inside a multi-byte character — a panic. -/
def extract_json_step4 (text : Str) : Except Unit (Option Str) :=
  match findSub text ['{'] with
  | some start =>
    match scanBalancedAux 0 0 (text.drop start) with
    | some i =>
      match takeBytes (text.drop start) (i + 1) with
      | some r => .ok (some r)
      | none => .error ()
    | none => .ok none
  | none => .ok none

/-- `extract_json`, plain-fence branch (src/brain/mod.rs:996-1005). -/
def extract_json_step3 (text : Str) : Except Unit (Option Str) :=
  match findSub text fence with
  | some start =>
    let after := text.drop (start + 3)
    match findSub after fence with
    | some e =>
      let inner := trimChars (after.take e)
      match inner with
      | '{' :: _ => .ok (some inner)
      | _ => extract_json_step4 text
    | none => extract_json_step4 text
  | none => extract_json_step4 text

/-- `extract_json`, ```json-fence branch (src/brain/mod.rs:988-994). -/
def extract_json_step2 (text : Str) : Except Unit (Option Str) :=
  match findSub text fenceJson with
  | some start =>
    let after := text.drop (start + 7)
    match findSub after fence with
    | some e => .ok (some (trimChars (after.take e)))
    | none => extract_json_step3 text
  | none => extract_json_step3 text

/-- `brain::extract_json` (src/brain/mod.rs:970-1025).  The first branch
slices `text[..=i]` with `i` from `chars().enumerate()` — a character
count used as a byte offset. -/
def extract_json (text : Str) : Except Unit (Option Str) :=
  match text with
  | '{' :: _ =>
    match scanBalancedAux 0 0 text with
    | some i =>
      match takeBytes text (i + 1) with
      | some r => .ok (some r)
      | none => .error ()
    | none => extract_json_step2 text
  | _ => extract_json_step2 text

/-- The net-open brace/bracket count of `repair_truncated_json`
(src/brain/mod.rs:896-915), with the string-literal and escape tracking.
Initial `prev_char` is a blank. -/
def countOpenAux : Int → Int → Bool → Char → Str → Int × Int
  | ob, obk, _, _, [] => (ob, obk)
  | ob, obk, inStr, prev, c :: rest =>
    let inStr := if c = '"' ∧ prev ≠ '\\' then !inStr else inStr
    if inStr then countOpenAux ob obk inStr c rest
    else if c = '{' then countOpenAux (ob + 1) obk inStr c rest
    else if c = '}' then countOpenAux (ob - 1) obk inStr c rest
    else if c = '[' then countOpenAux ob (obk + 1) inStr c rest
    else if c = ']' then countOpenAux ob (obk - 1) inStr c rest
    else countOpenAux ob obk inStr c rest

/-- `brain::repair_truncated_json` (src/brain/mod.rs:870-923). -/
def repair_truncated_json (s : Str) : Str :=
  match findSub s ['{'] with
  | none => s
  | some start =>
    let result := s.drop start
    let quoteCount := (result.filter (fun c => c == '"')).length
    let result :=
      if quoteCount % 2 ≠ 0 then
        match lastIdxOf '"' result with
        | some lq =>
          match lastIdxOf ',' (result.take lq) with
          | some lc => result.take lc
          | none =>
            match lastIdxOf '{' (result.take lq) with
            | some lb => result.take (lb + 1)
            | none => result
        | none => result
      else result
    let trimmed := trimEndChars result
    let result := if trimmed.getLast? = some ',' then trimmed.dropLast else result
    let (openBraces, openBrackets) := countOpenAux 0 0 false ' ' result
    result ++ List.replicate openBrackets.toNat ']' ++
      List.replicate openBraces.toNat '}'

/-- The object-collection loop of `extract_partial_actions`
(src/brain/mod.rs:936-962): `rest0` is the full scanned span, `i` the
character position, `pa` the per-object `serde_json` decode. -/
def epaLoop (pa : Str → Option AgentAction) (rest0 : Str) :
    Nat → Int → Option Nat → Bool → Char → Str → List AgentAction →
    List AgentAction
  | _, _, _, _, _, [], acc => acc
  | i, depth, objStart, inStr, prev, c :: tail, acc =>
    let inStr := if c = '"' ∧ prev ≠ '\\' then !inStr else inStr
    if inStr then epaLoop pa rest0 (i + 1) depth objStart inStr c tail acc
    else if c = '{' then
      let objStart := if depth = 1 then some i else objStart
      epaLoop pa rest0 (i + 1) (depth + 1) objStart inStr c tail acc
    else if c = '}' then
      if depth - 1 = 1 then
        let acc :=
          match objStart with
          | some start =>
            match pa ((rest0.drop start).take (i - start + 1)) with
            | some a => acc ++ [a]
            | none => acc
          | none => acc
        epaLoop pa rest0 (i + 1) (depth - 1) none inStr c tail acc
      else
        epaLoop pa rest0 (i + 1) (depth - 1) objStart inStr c tail acc
    else if c = ']' ∧ depth = 1 then acc
    else epaLoop pa rest0 (i + 1) depth objStart inStr c tail acc

/-- `brain::extract_partial_actions` (src/brain/mod.rs:925-968). -/
def extract_partial_actions (pa : Str → Option AgentAction) (s : Str) :
    Option (List AgentAction) :=
  match findSub s ('"' :: ("actions".data ++ ['"'])) with
  | none => none
  | some i =>
    match findSub (s.drop i) ['['] with
    | none => none
    | some j =>
      let rest := s.drop (i + j)
      let actions := epaLoop pa rest 0 0 none false ' ' rest []
      if actions.isEmpty then none else some actions

/-- `Brain::parse_response` (src/brain/mod.rs:476-524).  `tp` is the
`try_parse_json` serde decode, `pa` the per-object decode of the salvage
stage; a panic anywhere is `Except.error ()`. -/
def parse_response (tp : Str → Option AgentResponse)
    (pa : Str → Option AgentAction) (raw : Str) : Except Unit AgentResponse :=
  let trimmed := trimChars raw
  if containsSub trimmed "HEARTBEAT_OK".data then
    .ok { AgentResponse.default with reflection := some "HEARTBEAT_OK" }
  else
    let sanitized := sanitize_llm_json trimmed
    match extract_json sanitized with
    | .error e => .error e
    | .ok ojs =>
      match ojs.bind tp with
      | some resp => .ok resp
      | none =>
        let repaired := repair_truncated_json sanitized
        match extract_json repaired with
        | .error e => .error e
        | .ok ojs2 =>
          match ojs2.bind tp with
          | some resp => .ok resp
          | none =>
            match extract_partial_actions pa sanitized with
            | some actions =>
              if !actions.isEmpty then
                .ok { AgentResponse.default with
                        actions := actions,
                        reflection := some "(partial response recovered)" }
              else
                .ok { AgentResponse.default with
                        reflection := some (String.mk (trimmed.take 500)) }
            | none =>
              .ok { AgentResponse.default with
                      reflection := some (String.mk (trimmed.take 500)) }

-- ── concrete instances used by witnesses and counterexamples ──

/-- A RED "send_message" action targeting no particular package. -/
def actPlain : AgentAction :=
  { action_type := "send_message", params := .obj [], classification := "RED",
    reason := "", x := none, y := none, text := none, app := none }

/-- A GREEN-declared action whose `params.package` is a banking app. -/
def actBank : AgentAction :=
  { action_type := "launch_app", params := .obj [("package", .str "com.bank.app")],
    classification := "GREEN", reason := "", x := none, y := none,
    text := none, app := none }

/-- An action with an unknown classification string. -/
def actPurple : AgentAction :=
  { action_type := "tap", params := .obj [], classification := "PURPLE",
    reason := "", x := none, y := none, text := none, app := none }

/-- A driver that always succeeds with "sent". -/
def drvOk : Driver := fun _ => .ok "sent"

/-- The empty executor state. -/
def emptyState : ExecState := { pending := [], log := [], driverCalls := [] }

/-- A plain GREEN tap action. -/
def actGreen : AgentAction :=
  { action_type := "tap", params := .obj [], classification := "GREEN",
    reason := "", x := none, y := none, text := none, app := none }

/-- The three-character text `{€}`: the euro sign is three UTF-8
bytes, so the balanced close lies at character index 2 but byte offset 3
is in the middle of the euro sign. -/
def euroRaw : Str := ['{', Char.ofNat 0x20AC, '}']

/-- A clickable Button tag near the bottom of the screen (center y 1002). -/
def nHigh : NodeTag :=
  [("text", "A"), ("class", "android.widget.Button"), ("clickable", "true"),
   ("enabled", "true"), ("bounds", "[0,1000][20,1004]"), ("package", "com.app")]

/-- An identically shaped clickable Button at the top (center y 2). -/
def nLow : NodeTag :=
  [("text", "B"), ("class", "android.widget.Button"), ("clickable", "true"),
   ("enabled", "true"), ("bounds", "[0,0][20,4]"), ("package", "com.app")]

/-- The primary provider of the fallback counterexample trace. -/
def primP : ModelConfig :=
  { backend := "openai", model := "gpt-4o",
    endpoint := "https://api.openai.com/v1", api_key := "sk", vision_enabled := false }

/-- The single configured fallback provider of the trace. -/
def fbF : ModelConfig :=
  { backend := "groq", model := "llama", endpoint := "https://groq",
    api_key := "gk", vision_enabled := false }

/-- One fallback, 60 s cooldown, all fallover flags at their defaults. -/
def fbCfg : FallbackConfig :=
  { fallback_on_rate_limit := true, fallback_on_auth_error := true,
    fallback_on_timeout := true, fallback_cooldown_secs := 60,
    fallbacks := [fbF] }

/-- The manager after four rate-limit failures at t = 0, 61, 70, 122. -/
def fm4 : FallbackManager :=
  (report_failure (report_failure (report_failure (report_failure
      (FallbackManager.new primP fbCfg) "HTTP 429" 0).2 "HTTP 429" 61).2
      "HTTP 429" 70).2 "HTTP 429" 122).2

/-- A state holding one pending confirmation with id "abc" for `actPlain`. -/
def statePending : ExecState :=
  { pending := [{ action_id := "abc", action := actPlain, timestamp := "t0",
                  confirmed := none }],
    log := [], driverCalls := [] }

end Hermit

namespace Hermit

-- ═══════════════════════════════════════════════════════════════════════
-- Theorems: guardrail executor (C1, C2, C3, C9)
-- ═══════════════════════════════════════════════════════════════════════

/-- C1.  An `AgentAction` whose `params.package` matches (by substring) an
entry of the restricted-app list is effectively classified RED, and
`execute` queues a `PendingConfirmation` and returns the pending token
without calling the Device Driver and without logging — for every declared
classification and regardless of `auto_confirm_red` and `dry_run`. -/
theorem restricted_app_always_queued
    (ex : ActionExecutor) (driver : Driver) (id now : String)
    (a : AgentAction) (s : ExecState) (pkg : String)
    (hpkg : (a.params.get "package").bind JsonVal.asStr = some pkg)
    (hres : ex.restricted_apps.any (fun r => strContains pkg r) = true) :
    effective_classification ex a = "RED" ∧
    (execute ex driver id now a s).1 = .ok ("PENDING:" ++ id) ∧
    (execute ex driver id now a s).2.pending =
      s.pending ++ [{ action_id := id, action := a, timestamp := now,
                      confirmed := none }] ∧
    (execute ex driver id now a s).2.driverCalls = s.driverCalls ∧
    (execute ex driver id now a s).2.log = s.log := by
  have hm : matchesRestricted ex a = true := by
    unfold matchesRestricted
    rw [hpkg]
    exact hres
  have heff : effective_classification ex a = "RED" := by
    unfold effective_classification
    rw [hm]
    rfl
  refine ⟨heff, ?_, ?_, ?_, ?_⟩ <;> simp [execute, heff, hm]

/-- Closed witness for C1: a GREEN-declared launch of "com.bank.app" with
restricted list `["bank"]` is forced RED and queued. -/
theorem restricted_app_always_queued_witness :
    effective_classification (ActionExecutor.new false none ["bank"]) actBank = "RED" ∧
    (execute (ActionExecutor.new false none ["bank"]) drvOk "i1" "t1" actBank
        emptyState).1 = .ok ("PENDING:" ++ "i1") ∧
    (execute (ActionExecutor.new false none ["bank"]) drvOk "i1" "t1" actBank
        emptyState).2.pending =
      emptyState.pending ++ [{ action_id := "i1", action := actBank,
                               timestamp := "t1", confirmed := none }] ∧
    (execute (ActionExecutor.new false none ["bank"]) drvOk "i1" "t1" actBank
        emptyState).2.driverCalls = emptyState.driverCalls ∧
    (execute (ActionExecutor.new false none ["bank"]) drvOk "i1" "t1" actBank
        emptyState).2.log = emptyState.log :=
  restricted_app_always_queued (ActionExecutor.new false none ["bank"]) drvOk
    "i1" "t1" actBank emptyState "com.bank.app" (by rfl) (by decide)

/-- C2 (code bug).  `confirm` leaves the pending entry in the list after an
approved execution, so a second `confirm` on the same id finds it again and
executes the action a second time: starting from one pending entry "abc",
two `confirm("abc", true)` calls both succeed and the Device Driver trace
contains the action twice. -/
theorem confirm_double_execute_bug :
    (confirm drvOk "abc" true "t1" statePending).1 = .ok "sent" ∧
    (confirm drvOk "abc" true "t2"
        (confirm drvOk "abc" true "t1" statePending).2).1 = .ok "sent" ∧
    (confirm drvOk "abc" true "t2"
        (confirm drvOk "abc" true "t1" statePending).2).2.driverCalls =
      [actPlain, actPlain] := by
  refine ⟨?_, ?_, ?_⟩ <;> rfl

/-- C3.  Every executor built by `ActionExecutor::new` has
`auto_confirm_red = true` (there is no other constructor and no mutator of
the field in the source), and consequently a non-restricted action whose
effective classification is RED is, with `dry_run = false`, executed via
the Device Driver immediately — its result is exactly the driver's result —
and is never queued as a `PendingConfirmation`. -/
theorem new_auto_confirms_unrestricted_red
    (dry : Bool) (dev : Option String) (apps : List String)
    (driver : Driver) (id now : String) (a : AgentAction) (s : ExecState)
    (hred : effective_classification (ActionExecutor.new false dev apps) a = "RED")
    (hnr : matchesRestricted (ActionExecutor.new false dev apps) a = false) :
    (ActionExecutor.new dry dev apps).auto_confirm_red = true ∧
    (execute (ActionExecutor.new false dev apps) driver id now a s).1 = driver a ∧
    (execute (ActionExecutor.new false dev apps) driver id now a s).2.driverCalls =
      s.driverCalls ++ [a] ∧
    (execute (ActionExecutor.new false dev apps) driver id now a s).2.pending =
      s.pending := by
  have hauto : (ActionExecutor.new false dev apps).auto_confirm_red = true := rfl
  have hdry : (ActionExecutor.new false dev apps).dry_run = false := rfl
  refine ⟨rfl, ?_, ?_, ?_⟩ <;>
    cases hd : driver a <;>
      simp [execute, hred, hnr, hauto, hdry, do_action, hd, log_action]

/-- Closed witness for C3: a RED "send_message" with no package parameter is
executed immediately by an executor fresh from `new`. -/
theorem new_auto_confirms_unrestricted_red_witness :
    (ActionExecutor.new true none ["bank"]).auto_confirm_red = true ∧
    (execute (ActionExecutor.new false none ["bank"]) drvOk "i2" "t2" actPlain
        emptyState).1 = drvOk actPlain ∧
    (execute (ActionExecutor.new false none ["bank"]) drvOk "i2" "t2" actPlain
        emptyState).2.driverCalls = emptyState.driverCalls ++ [actPlain] ∧
    (execute (ActionExecutor.new false none ["bank"]) drvOk "i2" "t2" actPlain
        emptyState).2.pending = emptyState.pending :=
  new_auto_confirms_unrestricted_red true none ["bank"] drvOk "i2" "t2"
    actPlain emptyState (by decide) (by decide)

end Hermit

namespace Hermit

/-- C9 counterexample: executing an action with the unknown classification
"PURPLE" returns "BLOCKED" and appends *no* `ActionLogEntry`, refuting
"every execution attempt — … blocked … — appends exactly one entry". -/
theorem blocked_action_logs_nothing :
    (execute (ActionExecutor.new false none []) drvOk "i9c" "t9c" actPurple
        emptyState).1 = .ok "BLOCKED" ∧
    (execute (ActionExecutor.new false none []) drvOk "i9c" "t9c" actPurple
        emptyState).2.log = [] :=
  ⟨rfl, rfl⟩

/-- C9 (amended).  The action log is append-only (existing entries are never
modified or removed) and each `execute`/`confirm` call appends at most one
entry: exactly one on a successful real execution, a simulated dry-run
execution and an approved confirmation whose driver call succeeds; none on
the restricted-queue path, the manual-confirmation queue path (RED,
unrestricted, auto-confirm off), the blocked (unknown classification)
path, a failed driver call — in `execute` and in an approved
confirmation alike — a denied confirmation and an unknown-id
confirmation. -/
theorem action_log_append_only
    (ex : ActionExecutor) (driver : Driver) (id now cid : String)
    (approved : Bool) (a : AgentAction) (s : ExecState) :
    (∃ t, (execute ex driver id now a s).2.log = s.log ++ t ∧ t.length ≤ 1) ∧
    (∃ t, (confirm driver cid approved now s).2.log = s.log ++ t ∧ t.length ≤ 1) ∧
    (matchesRestricted ex a = true →
      (execute ex driver id now a s).2.log = s.log) ∧
    (effective_classification ex a = "RED" → matchesRestricted ex a = false →
     ex.auto_confirm_red = false →
      (execute ex driver id now a s).2.log = s.log) ∧
    (effective_classification ex a ≠ "RED" →
     effective_classification ex a ≠ "YELLOW" →
     effective_classification ex a ≠ "GREEN" →
      (execute ex driver id now a s).2.log = s.log) ∧
    ((effective_classification ex a = "GREEN" ∨
      effective_classification ex a = "YELLOW") → ex.dry_run = true →
      (execute ex driver id now a s).2.log.length = s.log.length + 1) ∧
    ((effective_classification ex a = "GREEN" ∨
      effective_classification ex a = "YELLOW" ∨
      (effective_classification ex a = "RED" ∧ matchesRestricted ex a = false ∧
       ex.auto_confirm_red = true)) → ex.dry_run = false →
     (∃ v, driver a = .ok v) →
      (execute ex driver id now a s).2.log.length = s.log.length + 1) ∧
    ((effective_classification ex a = "GREEN" ∨
      effective_classification ex a = "YELLOW" ∨
      (effective_classification ex a = "RED" ∧ matchesRestricted ex a = false ∧
       ex.auto_confirm_red = true)) → ex.dry_run = false →
     (∃ e, driver a = .error e) →
      (execute ex driver id now a s).2.log = s.log) ∧
    (findAndMark cid approved s.pending = none →
      (confirm driver cid approved now s).2.log = s.log) ∧
    ((confirm driver cid false now s).2.log = s.log) ∧
    (∀ act rest, findAndMark cid true s.pending = some (act, rest) →
     (∃ v, driver act = .ok v) →
      (confirm driver cid true now s).2.log.length = s.log.length + 1) ∧
    (∀ act rest, findAndMark cid true s.pending = some (act, rest) →
     (∃ e, driver act = .error e) →
      (confirm driver cid true now s).2.log = s.log) := by
  refine ⟨?_, ?_, ?_, ?_, ?_, ?_, ?_, ?_, ?_, ?_, ?_, ?_⟩
  · -- execute appends at most one entry
    unfold execute
    dsimp only
    split
    · split
      · exact ⟨[], by simp⟩
      · split
        · split
          · exact ⟨_, rfl, by simp [log_dry_run, log_action]⟩
          · rcases hd : driver a with e | v <;>
              simp [do_action, hd, log_action]
        · exact ⟨[], by simp⟩
    · split
      · split
        · exact ⟨_, rfl, by simp [log_dry_run, log_action]⟩
        · rcases hd : driver a with e | v <;>
            simp [do_action, hd, log_action]
      · split
        · split
          · exact ⟨_, rfl, by simp [log_dry_run, log_action]⟩
          · rcases hd : driver a with e | v <;>
              simp [do_action, hd, log_action]
        · exact ⟨[], by simp⟩
  · -- confirm appends at most one entry
    unfold confirm
    rcases hf : findAndMark cid approved s.pending with _ | ⟨act, rest⟩
    · exact ⟨[], by simp⟩
    · dsimp only
      split
      · rcases hd : driver act with e | v <;>
          simp [do_action, hd, log_action]
      · exact ⟨[], by simp⟩
  · intro hm
    have heff : effective_classification ex a = "RED" := by
      unfold effective_classification; rw [hm]; rfl
    simp [execute, heff, hm]
  · intro heff hm hauto
    simp [execute, heff, hm, hauto]
  · intro h1 h2 h3
    simp [execute, if_neg h1, if_neg h2, if_neg h3]
  · rintro (heff | heff) hdry <;>
      simp [execute, heff, hdry, log_dry_run, log_action]
  · rintro (heff | heff | ⟨heff, hm, hauto⟩) hdry ⟨v, hv⟩
    · simp [execute, heff, hdry, do_action, hv, log_action]
    · simp [execute, heff, hdry, do_action, hv, log_action]
    · simp [execute, heff, hdry, do_action, hv, log_action, hm, hauto]
  · rintro (heff | heff | ⟨heff, hm, hauto⟩) hdry ⟨e, he⟩
    · simp [execute, heff, hdry, do_action, he, log_action]
    · simp [execute, heff, hdry, do_action, he, log_action]
    · simp [execute, heff, hdry, do_action, he, log_action, hm, hauto]
  · intro hf
    simp [confirm, hf]
  · unfold confirm
    rcases hf : findAndMark cid false s.pending with _ | ⟨act, rest⟩ <;> simp
  · intro act rest hf ⟨v, hv⟩
    simp [confirm, hf, do_action, hv, log_action]
  · intro act rest hf ⟨e, he⟩
    simp [confirm, hf, do_action, he]

/-- Closed witness for C9: a dry-run GREEN tap appends exactly one log
entry. -/
theorem action_log_append_only_witness :
    (execute (ActionExecutor.new true none []) drvOk "i9" "t9" actGreen
        emptyState).2.log.length = emptyState.log.length + 1 :=
  (action_log_append_only (ActionExecutor.new true none []) drvOk "i9" "t9"
      "nobody" false actGreen emptyState).2.2.2.2.2.1 (Or.inl (by decide)) rfl

end Hermit

namespace Hermit

-- ═══════════════════════════════════════════════════════════════════════
-- Theorems: stuck detector (C6, C10)
-- ═══════════════════════════════════════════════════════════════════════

/-- C6 (code bug).  On a fresh detector with `screen_threshold = 3`, three
consecutive `check_screen` calls with the same nonzero hash all return
`Ok` — the first call only records the baseline, so the same-screen counter
reaches 2 on the third call and the detector only escalates on the *fourth*
identical hash.  The claim (and the repository's own test
`test_screen_unchanged_detection`) expects a non-`Ok` result on the third
call.  A fourth call with a different hash resets the counter and returns
`Ok`, as claimed. -/
theorem check_screen_threshold_off_by_one :
    (check_screen (StuckDetector.new StuckConfig.default) 12345).1 = .ok ∧
    (check_screen (check_screen (StuckDetector.new StuckConfig.default)
        12345).2 12345).1 = .ok ∧
    (check_screen (check_screen (check_screen
        (StuckDetector.new StuckConfig.default) 12345).2 12345).2 12345).1
      = .ok ∧
    (check_screen (check_screen (check_screen
        (StuckDetector.new StuckConfig.default) 12345).2 12345).2 12345).2.screen_same_count
      = 2 ∧
    (check_screen (check_screen (check_screen (check_screen
        (StuckDetector.new StuckConfig.default) 12345).2 12345).2 12345).2
        12345).1 ≠ .ok ∧
    (check_screen (check_screen (check_screen (check_screen
        (StuckDetector.new StuckConfig.default) 12345).2 12345).2 12345).2
        67890).1 = .ok := by
  refine ⟨rfl, rfl, rfl, rfl, ?_, rfl⟩
  decide

end Hermit

namespace Hermit

-- ═══════════════════════════════════════════════════════════════════════
-- Theorems: fallback manager (C5)
-- ═══════════════════════════════════════════════════════════════════════

/-- C5 (code bug).  A provider whose cooldown is active *can* be selected
as the active provider: `report_failure` pushes a fresh `(key, now)` entry
on every failure without removing older entries for the same key, and both
cooldown lookups use `find`, which returns the *oldest* entry.  Concretely,
with one fallback and a 60 s cooldown, after rate-limit failures at
t = 0, 61, 70, 122 (primary failing at 0, 70 and 122), the failure report at
t = 125 wraps back to the primary — selecting it as active although its
latest failure was 3 s earlier and its cooldown entry `(primary, 122)` is
still active. -/
theorem cooldown_reuse_selects_cooling_provider :
    (report_failure fm4 "HTTP 429" 125).1 = some primP ∧
    (report_failure fm4 "HTTP 429" 125).2.current_index = -1 ∧
    active_model (report_failure fm4 "HTTP 429" 125).2 = primP ∧
    (modelKey primP, 122) ∈ fm4.cooldowns ∧
    125 - 122 < fbCfg.fallback_cooldown_secs := by
  refine ⟨by decide, by decide, by decide, by decide, by decide⟩

end Hermit

namespace Hermit

-- ═══════════════════════════════════════════════════════════════════════
-- Theorems: perception sanitizer (C7, C8)
-- ═══════════════════════════════════════════════════════════════════════

/-- Re-indexing preserves the length. -/
theorem pReindexFrom_length (n : Nat) (l : List PUiElement) :
    (pReindexFrom n l).length = l.length := by
  induction l generalizing n with
  | nil => rfl
  | cons e es ih => simp [pReindexFrom, ih]

/-- Re-indexing writes exactly the indices `n, n+1, …`. -/
theorem pReindexFrom_map_index (n : Nat) (l : List PUiElement) :
    (pReindexFrom n l).map (fun e => e.index) = List.range' n l.length := by
  induction l generalizing n with
  | nil => rfl
  | cons e es ih => simp [pReindexFrom, List.range'_succ, ih]

/-- Re-indexing does not move elements: the centers are untouched. -/
theorem pReindexFrom_map_center (n : Nat) (l : List PUiElement) :
    (pReindexFrom n l).map (fun e => (e.center_y, e.center_x)) =
      l.map (fun e => (e.center_y, e.center_x)) := by
  induction l generalizing n with
  | nil => rfl
  | cons e es ih => simp [pReindexFrom, ih]

/-- Sanitizer re-indexing preserves the length. -/
theorem sReindexFrom_length (n : Nat) (l : List SUiElement) :
    (sReindexFrom n l).length = l.length := by
  induction l generalizing n with
  | nil => rfl
  | cons e es ih => simp [sReindexFrom, ih]

/-- Sanitizer re-indexing writes exactly the indices `n, n+1, …`. -/
theorem sReindexFrom_map_index (n : Nat) (l : List SUiElement) :
    (sReindexFrom n l).map (fun e => e.index) = List.range' n l.length := by
  induction l generalizing n with
  | nil => rfl
  | cons e es ih => simp [sReindexFrom, List.range'_succ, ih]

/-- Sanitizer re-indexing does not reorder or rescore: the scores are
untouched. -/
theorem sReindexFrom_map_score (n : Nat) (l : List SUiElement) :
    (sReindexFrom n l).map (fun e => e.score) = l.map (fun e => e.score) := by
  induction l generalizing n with
  | nil => rfl
  | cons e es ih => simp [sReindexFrom, ih]

/-- C7 counterexample: two identically shaped clickable buttons, the
bottom one (center y 1002) listed before the top one (center y 2), receive
identical scores, so `parse_accessibility_xml` — which never re-sorts by
position — returns them in input order: the element list is *not* sorted
by `(center.y, center.x)`.  (The `lnTerm` stub is never consulted: both
areas are 80 ≤ 100.) -/
theorem sanitizer_output_not_reading_order :
    (parse_accessibility_xml (fun _ => 0) [nHigh, nLow] 50).elements.map
        (fun e => (e.center.2, e.center.1)) = [(1002, 10), (2, 10)] ∧
    ¬ List.Pairwise (fun p q : Int × Int => p.1 < q.1 ∨ (p.1 = q.1 ∧ p.2 ≤ q.2))
      ((parse_accessibility_xml (fun _ => 0) [nHigh, nLow] 50).elements.map
        (fun e => (e.center.2, e.center.1))) := by
  exact ⟨by decide, by decide⟩

/-- C7 (amended).  The perception parser `parse_ui_elements`
(src/perception/mod.rs) satisfies the claim in full: on a dump whose
qualifying (well-formed, info-bearing, nonzero-area) nodes number `N` it
returns `min N 40` elements, indexed exactly `1..=count` in order, sorted
by ascending center y with ties by ascending center x.  The sanitizer
`parse_accessibility_xml` (src/sanitizer.rs) returns `min N maxElements`
elements indexed `1..=count`, sorted by descending score — not reading
order (see the counterexample). -/
theorem parse_ui_elements_shape (nodes : List NodeTag) (lnTerm : Int → Int)
    (snodes : List NodeTag) (maxE : Nat) :
    (parse_ui_elements nodes).length =
      min (nodes.filterMap pParseNode).length MAX_ELEMENTS ∧
    (parse_ui_elements nodes).map (fun e => e.index) =
      List.range' 1 (parse_ui_elements nodes).length ∧
    List.Pairwise (fun p q : Int × Int => p.1 < q.1 ∨ (p.1 = q.1 ∧ p.2 ≤ q.2))
      ((parse_ui_elements nodes).map (fun e => (e.center_y, e.center_x))) ∧
    (parse_accessibility_xml lnTerm snodes maxE).elements.length =
      min (collectUseful 0 snodes).length
        (if maxE = 0 then DEFAULT_MAX_ELEMENTS else maxE) ∧
    (parse_accessibility_xml lnTerm snodes maxE).elements.map (fun e => e.index) =
      List.range' 1 (parse_accessibility_xml lnTerm snodes maxE).elements.length ∧
    List.Pairwise (fun x y : Int => y ≤ x)
      ((parse_accessibility_xml lnTerm snodes maxE).elements.map
        (fun e => e.score)) := by
  refine ⟨?_, ?_, ?_, ?_, ?_, ?_⟩
  · show (pReindexFrom 1 _).length = _
    rw [pReindexFrom_length, List.length_insertionSort, List.length_take,
        List.length_insertionSort, Nat.min_comm]
  · show (pReindexFrom 1 _).map _ = List.range' 1 (pReindexFrom 1 _).length
    rw [pReindexFrom_map_index, pReindexFrom_length]
  · show List.Pairwise _ ((pReindexFrom 1 _).map _)
    rw [pReindexFrom_map_center]
    exact List.pairwise_map.mpr (List.sorted_insertionSort pPosLe _)
  · show (sReindexFrom 1 _).length = _
    rw [sReindexFrom_length, List.length_take, List.length_insertionSort,
        List.length_map, Nat.min_comm]
  · show (sReindexFrom 1 _).map _ = List.range' 1 (sReindexFrom 1 _).length
    rw [sReindexFrom_map_index, sReindexFrom_length]
  · show List.Pairwise _ ((sReindexFrom 1 _).map _)
    rw [sReindexFrom_map_score]
    exact List.pairwise_map.mpr
      ((List.sorted_insertionSort sScoreGe _).sublist (List.take_sublist _ _))

/-- C8.  The observation needs vision fallback exactly when the tree
failed to parse at all (no dump) or the interaction-flagged element count
is below the threshold 5; in particular any dump with zero qualifying
interactive elements — including an empty dump — sets it. -/
theorem needs_vision_fallback_rule (lnTerm : Int → Int)
    (tree : Option (List NodeTag)) (maxE : Nat) :
    ((perceive_screen_parse lnTerm tree maxE).needs_vision_fallback = true ↔
      tree = none ∨ ∃ nodes, tree = some nodes ∧
        interactiveCountOf nodes < VISION_FALLBACK_THRESHOLD) ∧
    ((perceive_screen_parse lnTerm tree maxE).interactive_count = 0 →
      (perceive_screen_parse lnTerm tree maxE).needs_vision_fallback = true) ∧
    (tree = some [] →
      (perceive_screen_parse lnTerm tree maxE).needs_vision_fallback = true) := by
  cases tree with
  | none => simp [perceive_screen_parse]
  | some nodes =>
    refine ⟨?_, ?_, ?_⟩
    · simp [perceive_screen_parse, parse_accessibility_xml, interactiveCountOf]
    · intro h
      simp only [perceive_screen_parse, parse_accessibility_xml] at h ⊢
      simp [h, VISION_FALLBACK_THRESHOLD]
    · rintro ⟨rfl⟩
      simp [perceive_screen_parse, parse_accessibility_xml, collectUseful,
            VISION_FALLBACK_THRESHOLD]

/-- Closed witness for C8: the empty dump needs vision fallback. -/
theorem needs_vision_fallback_rule_witness :
    (perceive_screen_parse (fun _ => 0) (some []) 40).needs_vision_fallback = true :=
  (needs_vision_fallback_rule (fun _ => 0) (some []) 40).2.2 rfl

end Hermit

namespace Hermit

-- ═══════════════════════════════════════════════════════════════════════
-- Theorems: response parser (C4)
-- ═══════════════════════════════════════════════════════════════════════

/-- C4 (code bug).  `parse_response` is *not* total: on the raw text
`\x7b€\x7d` the first `extract_json` branch finds the balanced close at
character index 2 and slices `text[..=2]`, but byte offset 3 falls inside
the three-byte euro sign, so the slice panics — for every behaviour of the
`serde_json` oracles, since the panic happens before any decode is
attempted.  The claim (and spec) say `parse` never fails. -/
theorem parse_response_panics_on_multibyte
    (tp : Str → Option AgentResponse) (pa : Str → Option AgentAction) :
    parse_response tp pa euroRaw = .error () ∧
    extract_json (sanitize_llm_json (trimChars euroRaw)) = .error () ∧
    isCharBoundary (sanitize_llm_json (trimChars euroRaw)) 3 = false :=
  ⟨rfl, rfl, rfl⟩

end Hermit
